import Mathlib

set_option autoImplicit false

/-!
Verification development for the JARVIS-API provider-fallback core.

The definitions below are a shallow embedding of the JavaScript sources:
  - src/services/priorityService.js   (priority store)
  - src/utils/helpers.js              (validateApiKey, retryWithBackoff, ServiceError)
  - src/services/BaseAIService.js     (availability gate, per-provider retry, error mapping)
  - src/services/aiServiceManager.js  (fallback orchestrator)

JavaScript `undefined`/missing values are modelled with `Option`; thrown errors with
`Except`; the module-level mutable `priorityConfig` cache and the priority.json file
are threaded explicitly as a `StoreState`.  Provider adapters' network behaviour is
abstracted as a function from call index to raw outcome, exactly the part of the code
(`makeRequest`) that performs I/O.
-/

/-- Entry of the persisted priority collection (one element of priority.json's
`providers` array): id, numeric priority, enabled flag and chosen model. -/
structure PriorityEntry where
  id : String
  priority : Int
  enabled : Bool
  model : String
  deriving Repr, DecidableEq

/-- Shape of priority.json's optional `settings` object; each flag may be absent. -/
structure SettingsObj where
  noTimeoutRestrictions : Option Bool
  noTokenLimits : Option Bool
  allowCompleteResponse : Option Bool
  deriving Repr, DecidableEq

/-- Parsed, well-formed priority.json content. -/
structure PriorityConfig where
  providers : List PriorityEntry
  settings : Option SettingsObj
  lastUpdated : Option String
  deriving Repr, DecidableEq

/-- Content of the priority.json file after JSON.parse: either a well-formed
configuration, or an object whose `providers` field is absent or not an array
(it may still carry a `settings` object). -/
inductive StoredJson where
  | validJ (cfg : PriorityConfig)
  | invalidJ (settings : Option SettingsObj)
  deriving Repr, DecidableEq

/-- State of the priority store: the backing file (`none` = file missing) and the
module-level `priorityConfig` cache of priorityService.js. -/
structure StoreState where
  file : Option StoredJson
  cache : Option StoredJson
  deriving Repr, DecidableEq

/-- priorityService.loadPriorityConfig: throws if the file is missing; otherwise
parses it, assigns the module cache (before validation, as in the source), and
throws if `providers` is absent or not an array. -/
def loadPriorityConfigS (st : StoreState) : StoreState × Except String PriorityConfig :=
  match st.file with
  | none => (st, .error "Priority configuration file not found. Please create priority.json file.")
  | some j =>
    let st' : StoreState := { st with cache := some j }
    match j with
    | .validJ cfg => (st', .ok cfg)
    | .invalidJ _ => (st', .error "Invalid priority.json: providers array is required")

/-- priorityService.reloadPriorityConfig: clears the cache and loads again. -/
def reloadPriorityConfigS (st : StoreState) : StoreState × Except String PriorityConfig :=
  loadPriorityConfigS { file := st.file, cache := none }

/-- Stable insertion of an entry after every already-placed entry of smaller or
equal priority; `foldl` over it reproduces the stable ascending sort that
`providers.sort((a, b) => a.priority - b.priority)` performs. -/
def insertByPriority (e : PriorityEntry) : List PriorityEntry → List PriorityEntry
  | [] => [e]
  | x :: xs => if x.priority ≤ e.priority then x :: insertByPriority e xs else e :: x :: xs

/-- Stable ascending sort by the `priority` field, as JavaScript Array#sort with
comparator `a.priority - b.priority`. -/
def sortByPriority (l : List PriorityEntry) : List PriorityEntry :=
  l.foldl (fun acc e => insertByPriority e acc) []

/-- Enabled providers sorted by ascending priority
(`config.providers.filter(p => p.enabled).sort((a, b) => a.priority - b.priority)`). -/
def orderedEnabled (cfg : PriorityConfig) : List PriorityEntry :=
  sortByPriority (cfg.providers.filter (fun p => p.enabled))

/-- Hard-coded order returned by getPriorityOrder when resolving the store throws. -/
def fallbackOrder : List String := ["gemini", "groq", "github", "openrouter"]

/-- priorityService.getPriorityOrder: resolves `priorityConfig || loadPriorityConfig()`,
maps the enabled providers sorted by priority to their ids; any failure (missing file,
malformed file, or `providers` access on a malformed cached object) is caught and the
hard-coded fallback order is returned. -/
def getPriorityOrderS (st : StoreState) : StoreState × List String :=
  match st.cache with
  | some (.validJ cfg) => (st, (orderedEnabled cfg).map (fun p => p.id))
  | some (.invalidJ _) => (st, fallbackOrder)
  | none =>
    let p := loadPriorityConfigS st
    match p.2 with
    | .ok cfg => (p.1, (orderedEnabled cfg).map (fun q => q.id))
    | .error _ => (p.1, fallbackOrder)

/-- Settings record returned by priorityService.getPrioritySettings. -/
structure PrioritySettings where
  noTimeoutRestrictions : Bool
  noTokenLimits : Bool
  allowCompleteResponse : Bool
  maxTokens : Option Int
  timeoutThreshold : Option Int
  retryCount : Nat
  deriving Repr, DecidableEq

/-- JavaScript `x || true` for an optional boolean `x`
(`config.settings?.flag || true`). -/
def jsOrTrue : Option Bool → Bool
  | some b => b || true
  | none => true

/-- Body of getPrioritySettings applied to an optional `settings` object. -/
def settingsOf (s : Option SettingsObj) : PrioritySettings :=
  { noTimeoutRestrictions := jsOrTrue (s.bind (fun o => o.noTimeoutRestrictions))
  , noTokenLimits := jsOrTrue (s.bind (fun o => o.noTokenLimits))
  , allowCompleteResponse := jsOrTrue (s.bind (fun o => o.allowCompleteResponse))
  , maxTokens := none
  , timeoutThreshold := none
  , retryCount := 1 }

/-- priorityService.getPrioritySettings on an already-resolved configuration. -/
def getPrioritySettings (cfg : PriorityConfig) : PrioritySettings :=
  settingsOf cfg.settings

/-- priorityService.getPrioritySettings with the store threaded: resolves
`priorityConfig || loadPriorityConfig()` (no catch, so a failed load propagates);
optional chaining on a malformed cached object yields the defaults. -/
def getPrioritySettingsS (st : StoreState) : StoreState × Except String PrioritySettings :=
  match st.cache with
  | some (.validJ cfg) => (st, .ok (getPrioritySettings cfg))
  | some (.invalidJ s) => (st, .ok (settingsOf s))
  | none =>
    let p := loadPriorityConfigS st
    match p.2 with
    | .ok cfg => (p.1, .ok (getPrioritySettings cfg))
    | .error m => (p.1, .error m)

/-- Mutation done by updateProviderPriority: `providers.find(p => p.id === id)`
returns the first match, whose `priority` field is assigned in place. -/
def setFirstPriority (providerId : String) (newPriority : Int) :
    List PriorityEntry → List PriorityEntry
  | [] => []
  | e :: rest =>
    if e.id == providerId then { e with priority := newPriority } :: rest
    else e :: setFirstPriority providerId newPriority rest

/-- Core of updateProviderPriority once the configuration is resolved: throw if the
id is absent, else mutate the first matching entry, stamp `lastUpdated`, write the
whole configuration to the file and leave it as the cache. -/
def updateGo (st : StoreState) (cfg : PriorityConfig) (providerId : String)
    (newPriority : Int) (now : String) : StoreState × Except String PriorityConfig :=
  if cfg.providers.any (fun p => p.id == providerId) then
    let cfg' : PriorityConfig :=
      { providers := setFirstPriority providerId newPriority cfg.providers
      , settings := cfg.settings
      , lastUpdated := some now }
    ({ file := some (.validJ cfg'), cache := some (.validJ cfg') }, .ok cfg')
  else
    (st, .error ("Provider " ++ providerId ++ " not found"))

/-- priorityService.updateProviderPriority: resolves the configuration
(`priorityConfig || loadPriorityConfig()`; accessing `providers` of a malformed
cached object throws), then mutates and persists. -/
def updateProviderPriorityS (st : StoreState) (providerId : String) (newPriority : Int)
    (now : String) : StoreState × Except String PriorityConfig :=
  match st.cache with
  | some (.validJ cfg) => updateGo st cfg providerId newPriority now
  | some (.invalidJ _) => (st, .error "Cannot read providers of malformed priority configuration")
  | none =>
    let p := loadPriorityConfigS st
    match p.2 with
    | .ok cfg => updateGo p.1 cfg providerId newPriority now
    | .error m => (p.1, .error m)

/-- Static provider descriptor from CONFIG.PROVIDERS (fields the fallback core
reads; baseURL and timeout are unused by the modelled path and omitted). -/
structure ProviderConfig where
  id : String
  name : String
  envKey : String
  keyPrefix : String
  deriving Repr, DecidableEq

/-- JavaScript String#startsWith, computed on the underlying character list. -/
def strStartsWith (s pre : String) : Bool :=
  pre.data.isPrefixOf s.data

/-- helpers.validateApiKey: false for a missing or empty (falsy) key, else
`key.startsWith(prefix)`. -/
def validateApiKey (key : Option String) (pre : String) : Bool :=
  match key with
  | none => false
  | some k => if k = "" then false else strStartsWith k pre

/-- Process environment: credential lookup by variable name. -/
def Env : Type := String → Option String

/-- JavaScript truthiness of an optional string (`!!value`). -/
def jsTruthyStr : Option String → Bool
  | none => false
  | some s => !(s == "")

/-- BaseAIService.isAvailable: `!!this.apiKey && validateApiKey(this.apiKey, keyPrefix)`
where `this.apiKey = process.env[envKey]`. -/
def isAvailable (env : Env) (cfg : ProviderConfig) : Bool :=
  jsTruthyStr (env cfg.envKey) && validateApiKey (env cfg.envKey) cfg.keyPrefix

/-- BaseAIService.hasApiKey: textually the same check as isAvailable. -/
def hasApiKey (env : Env) (cfg : ProviderConfig) : Bool :=
  jsTruthyStr (env cfg.envKey) && validateApiKey (env cfg.envKey) cfg.keyPrefix

/-- Outcome of one raw `makeRequest` call of a provider adapter: either content,
or a thrown error with an optional HTTP status and a message. -/
inductive RawOutcome where
  | ok (content : String)
  | err (status : Option Nat) (message : String)
  deriving Repr, DecidableEq

/-- Raw thrown error as seen by retryWithBackoff (`error.status`, `error.message`). -/
structure RawError where
  status : Option Nat
  message : String
  deriving Repr, DecidableEq

/-- Loop body of helpers.retryWithBackoff; `beh n` is the outcome of the n-th call
of `fn`, `retries` the loop counter.  The fuel argument is `maxRetries + 1 - retries`
and never reaches 0 on the paths the loop takes.  Returns the number of calls made
together with the result: an error with status 401 or 429 is rethrown immediately;
otherwise the loop retries until `retries >= maxRetries`, then throws the last error. -/
def retryAux (beh : Nat → RawOutcome) (maxRetries : Nat) :
    Nat → Nat → Nat × Except RawError String
  | 0, retries => (retries, .error { status := none, message := "retry fuel exhausted" })
  | fuel + 1, retries =>
    match beh retries with
    | .ok c => (retries + 1, .ok c)
    | .err st msg =>
      if st == some 401 || st == some 429 then
        (retries + 1, .error { status := st, message := msg })
      else if maxRetries ≤ retries then
        (retries + 1, .error { status := st, message := msg })
      else
        retryAux beh maxRetries fuel (retries + 1)

/-- helpers.retryWithBackoff (backoff delays are timing only and not modelled). -/
def retryWithBackoff (beh : Nat → RawOutcome) (maxRetries : Nat) :
    Nat × Except RawError String :=
  retryAux beh maxRetries (maxRetries + 1) 0

/-- ServiceError as observed by the orchestrator: message and `status`
(`none` models a plain Error without a status field). -/
structure ServiceErrorL where
  message : String
  status : Option Nat
  deriving Repr, DecidableEq

/-- Containment of one character list in another (substring search). -/
def charsContain (pat : List Char) : List Char → Bool
  | [] => pat.isEmpty
  | c :: rest => pat.isPrefixOf (c :: rest) || charsContain pat rest

/-- JavaScript String#includes, computed on the underlying character list. -/
def strIncludes (s pat : String) : Bool :=
  charsContain pat.data s.data

/-- BaseAIService.handleError: standardizes a raw error into a ServiceError by
substring tests on the message, in source order. -/
def handleError (cfg : ProviderConfig) (e : RawError) : ServiceErrorL :=
  if strIncludes e.message "401" || strIncludes e.message "auth" then
    { message := "Authentication failed for " ++ cfg.name ++ ". Please check your API key."
    , status := some 401 }
  else if strIncludes e.message "429" || strIncludes e.message "rate limit" then
    { message := "Rate limit exceeded for " ++ cfg.name ++ ". Please try again later."
    , status := some 429 }
  else if strIncludes e.message "503" || strIncludes e.message "service unavailable" then
    { message := cfg.name ++ " service is temporarily unavailable. Please try again in a few moments."
    , status := some 503 }
  else if strIncludes e.message "timeout" then
    { message := "Request timeout for " ++ cfg.name ++ ". Please try again."
    , status := some 408 }
  else
    { message := cfg.name ++ " request failed: " ++ e.message
    , status := some 500 }

/-- Successful payload of BaseAIService.generateResponse (fields the orchestrator
reads back). -/
structure SuccessInfo where
  content : String
  provider : String
  deriving Repr, DecidableEq

/-- BaseAIService.generateResponse around one candidate: run the raw calls under
retryWithBackoff; a final failure is standardized by handleError. Returns the
number of raw calls made and the outcome. -/
def serviceGenerate (cfg : ProviderConfig) (beh : Nat → RawOutcome) (maxRetries : Nat) :
    Nat × Except ServiceErrorL SuccessInfo :=
  match retryWithBackoff beh maxRetries with
  | (calls, .ok c) => (calls, .ok { content := c, provider := cfg.name })
  | (calls, .error e) => (calls, .error (handleError cfg e))

/-- Candidate entry produced by getAvailableServices (id plus its static config). -/
structure ServiceInfo where
  id : String
  cfg : ProviderConfig
  deriving Repr, DecidableEq

/-- Result object returned by aiServiceManager.generateResponse on success
(fields relevant to the core). -/
structure GenerationResult where
  response : String
  provider : String
  fallbackUsed : Bool
  totalAttempts : Nat
  availableServices : Nat
  deriving Repr, DecidableEq

/-- Final throw of aiServiceManager.generateResponse once the candidate loop ends:
a distinguished 503 message when the last error was a 503, otherwise an aggregate
message carrying the last error, with status `lastError?.status || 500`. -/
def exhaustedError : Option ServiceErrorL → ServiceErrorL
  | some e =>
    if e.status == some 503 then
      { message := "AI services are temporarily unavailable. Please try again in a few moments."
      , status := some 503 }
    else
      { message := "All AI services failed. Last error: " ++ e.message
      , status := match e.status with | some s => some s | none => some 500 }
  | none =>
    { message := "All AI services failed. Last error: Unknown error", status := some 500 }

/-- Candidate loop of aiServiceManager.generateResponse.  `attempts` is the running
counter incremented once per candidate; on success the result carries
`fallbackUsed = attempts > 1` and `totalAttempts = attempts`; an error with
status 401 breaks out of the loop (landing on the final throw); any other error
continues with the next candidate.  Also returns the trace of
(candidate id, raw calls made) pairs, for stating attempt-sequence properties. -/
def runCandidates (beh : String → Nat → RawOutcome) (maxRetries availCount : Nat) :
    List ServiceInfo → Nat → Option ServiceErrorL →
    List (String × Nat) × Except ServiceErrorL GenerationResult
  | [], _, lastError => ([], .error (exhaustedError lastError))
  | c :: rest, attempts, _ =>
    let s := serviceGenerate c.cfg (beh c.id) maxRetries
    match s.2 with
    | .ok suc =>
      ([(c.id, s.1)],
        .ok { response := suc.content
            , provider := suc.provider
            , fallbackUsed := decide (1 < attempts + 1)
            , totalAttempts := attempts + 1
            , availableServices := availCount })
    | .error e =>
      if e.status == some 401 then
        ([(c.id, s.1)], .error (exhaustedError (some e)))
      else
        let r := runCandidates beh maxRetries availCount rest (attempts + 1) (some e)
        ((c.id, s.1) :: r.1, r.2)

/-- CONFIG.PROVIDERS.GROQ (fields read by the fallback core). -/
def groqConfig : ProviderConfig :=
  { id := "groq", name := "Groq", envKey := "GROQ_API_KEY", keyPrefix := "gsk_" }

/-- CONFIG.PROVIDERS.GITHUB. -/
def githubConfig : ProviderConfig :=
  { id := "github", name := "GitHub OpenAI", envKey := "GITHUB_TOKEN", keyPrefix := "github_pat_" }

/-- CONFIG.PROVIDERS.OPENROUTER. -/
def openrouterConfig : ProviderConfig :=
  { id := "openrouter", name := "OpenRouter", envKey := "OPENROUTER_API_KEY", keyPrefix := "sk-or-v1-" }

/-- CONFIG.PROVIDERS.GEMINI. -/
def geminiConfig : ProviderConfig :=
  { id := "gemini", name := "Google Gemini", envKey := "GEMINI_API_KEY", keyPrefix := "AIzaSy" }

/-- The four providers registered by AIServiceManager.initializeServices with the
descriptors of CONFIG.PROVIDERS. -/
def PROVIDERS : List ProviderConfig :=
  [groqConfig, githubConfig, openrouterConfig, geminiConfig]

/-- Lookup of both `this.services.get(id)` and `CONFIG.PROVIDERS[id.toUpperCase()]`
(the two maps have exactly the same four keys). -/
def findProvider (sid : String) : Option ProviderConfig :=
  PROVIDERS.find? (fun p => p.id == sid)

/-- aiServiceManager.getAvailableServices: ids in priority order, dropping ids with
no registered service/config and those whose hasApiKey check fails. -/
def getAvailableServicesS (env : Env) (st : StoreState) : StoreState × List ServiceInfo :=
  let p := getPriorityOrderS st
  (p.1, p.2.filterMap (fun sid =>
    (findProvider sid).bind (fun pc =>
      if hasApiKey env pc then some { id := sid, cfg := pc } else none)))

/-- Caller-supplied generation options relevant to the modelled path. -/
structure GenOptions where
  maxTokens : Option Int
  timeout : Option Int
  deriving Repr, DecidableEq

/-- Instrumented output of aiServiceManager.generateResponse: final store state,
trace of (provider id, raw calls) attempted, the request options passed to the
adapters (when the run got that far), and the returned or thrown result. -/
structure RunOutput where
  state : StoreState
  trace : List (String × Nat)
  reqOptions : Option GenOptions
  result : Except ServiceErrorL GenerationResult

/-- aiServiceManager.generateResponse: select candidates, fail fast when none,
fetch settings (an uncaught load failure propagates as a plain error), strip
maxTokens/timeout according to the settings, and run the candidate loop.
`production` is `NODE_ENV === 'production'` and fixes the per-provider retry
bound of BaseAIService.generateResponse (1 in production, 2 otherwise). -/
def generateResponse (env : Env) (st : StoreState) (beh : String → Nat → RawOutcome)
    (production : Bool) (opts : GenOptions) : RunOutput :=
  let p := getAvailableServicesS env st
  let avail := p.2
  if avail.isEmpty then
    { state := p.1, trace := [], reqOptions := none
    , result := .error
        { message := "No AI services are available. Please check your API key configuration."
        , status := some 500 } }
  else
    let q := getPrioritySettingsS p.1
    match q.2 with
    | .error m =>
      { state := q.1, trace := [], reqOptions := none
      , result := .error { message := m, status := none } }
    | .ok settings =>
      let reqOpts : GenOptions :=
        { maxTokens := if settings.noTokenLimits then none else opts.maxTokens
        , timeout := if settings.noTimeoutRestrictions then none else opts.timeout }
      let maxRetries := if production then 1 else 2
      let rc := runCandidates beh maxRetries avail.length avail 0 none
      { state := q.1, trace := rc.1, reqOptions := some reqOpts, result := rc.2 }

/-- Truncation of a list at (and including) the first element satisfying `p`;
the whole list when no element does. -/
def takeThrough {α : Type} (p : α → Bool) : List α → List α
  | [] => []
  | x :: xs => if p x then [x] else x :: takeThrough p xs

/-- True when the candidate loop stops at this candidate: its call succeeds, or
fails with a standardized 401 (the `break`). -/
def stopsAt (beh : String → Nat → RawOutcome) (maxRetries : Nat) (c : ServiceInfo) : Bool :=
  match (serviceGenerate c.cfg (beh c.id) maxRetries).2 with
  | .ok _ => true
  | .error e => e.status == some 401

/-- True when this candidate's call succeeds. -/
def succeedsAt (beh : String → Nat → RawOutcome) (maxRetries : Nat) (c : ServiceInfo) : Bool :=
  match (serviceGenerate c.cfg (beh c.id) maxRetries).2 with
  | .ok _ => true
  | .error _ => false

/-- Attempt sequence as the spec claims it (C1): the candidate list truncated at
the first success only.  This definition follows the spec wording, for comparison
with the code's behaviour. -/
def specAttemptedSequence (beh : String → Nat → RawOutcome) (maxRetries : Nat)
    (cands : List ServiceInfo) : List String :=
  (takeThrough (succeedsAt beh maxRetries) cands).map (fun c => c.id)

/-- Availability of a priority-order id through the registered provider table. -/
def idAvailable (env : Env) (sid : String) : Bool :=
  match findProvider sid with
  | some pc => hasApiKey env pc
  | none => false

/-- Two-provider configuration used as concrete input: groq at priority 1,
gemini at priority 2, both enabled, no settings object. -/
def cfgGG : PriorityConfig :=
  { providers :=
      [ { id := "groq", priority := 1, enabled := true, model := "llama" }
      , { id := "gemini", priority := 2, enabled := true, model := "flash" } ]
  , settings := none, lastUpdated := none }

/-- Store state whose file and cache both hold cfgGG. -/
def stGG : StoreState := { file := some (.validJ cfgGG), cache := some (.validJ cfgGG) }

/-- Environment with well-formed groq and gemini credentials. -/
def envBoth : Env := fun k =>
  if k = "GROQ_API_KEY" then some "gsk_abc123def456" else
  if k = "GEMINI_API_KEY" then some "AIzaSyabcdef123456" else none

/-- Environment with only a well-formed gemini credential. -/
def envGeminiOnly : Env := fun k =>
  if k = "GEMINI_API_KEY" then some "AIzaSyabcdef123456" else none

/-- Environment whose groq credential is exactly the expected prefix and nothing more. -/
def envGroqPrefixOnly : Env := fun k =>
  if k = "GROQ_API_KEY" then some "gsk_" else none

/-- Environment with no credentials at all. -/
def envNone : Env := fun _ => none

/-- Adapter behaviour: every call of every provider succeeds. -/
def behAllOk : String → Nat → RawOutcome := fun _ _ => .ok "hello"

/-- Adapter behaviour: groq always throws an authentication error (HTTP 401),
every other provider succeeds. -/
def behGroq401 : String → Nat → RawOutcome := fun sid _ =>
  if sid = "groq" then .err (some 401) "Request failed with status 401" else .ok "hello"

/-- Adapter behaviour: groq always throws a rate-limit error (HTTP 429),
every other provider succeeds. -/
def behGroq429 : String → Nat → RawOutcome := fun sid _ =>
  if sid = "groq" then .err (some 429) "Request failed with status code 429" else .ok "hello"

/-- Adapter behaviour: groq always throws a generic server error (HTTP 500),
every other provider succeeds. -/
def behGroq500 : String → Nat → RawOutcome := fun sid _ =>
  if sid = "groq" then .err (some 500) "Internal server error 500" else .ok "hello"

/-- Caller options carrying explicit maxTokens and timeout values. -/
def someOpts : GenOptions := { maxTokens := some 1000, timeout := some 30000 }

/-- Configuration whose settings object explicitly sets every restriction flag
to false. -/
def cfgExplicitFalse : PriorityConfig :=
  { providers :=
      [ { id := "gemini", priority := 1, enabled := true, model := "flash" } ]
  , settings := some
      { noTimeoutRestrictions := some false
      , noTokenLimits := some false
      , allowCompleteResponse := some false }
  , lastUpdated := none }




-- Decidable equality for Except results, for concrete evaluation.
deriving instance DecidableEq for Except

/-- The store state resolves to configuration cfg. -/
def resolvesTo (st : StoreState) (cfg : PriorityConfig) : Prop :=
  st.cache = some (.validJ cfg) ∨ (st.cache = none ∧ st.file = some (.validJ cfg))

/-- Relation between an original entry and the corresponding entry after a
priority update of provider pid: id, enabled and model are unchanged, and the
priority is unchanged unless this is an entry for pid that received value p. -/
def entryUpd (pid : String) (p : Int) (e e' : PriorityEntry) : Prop :=
  e'.id = e.id ∧ e'.enabled = e.enabled ∧ e'.model = e.model
  ∧ (e'.priority = e.priority ∨ (e.id = pid ∧ e'.priority = p))

/-- Candidate record for groq. -/
def siGroq : ServiceInfo := { id := "groq", cfg := groqConfig }

/-- Candidate record for gemini. -/
def siGemini : ServiceInfo := { id := "gemini", cfg := geminiConfig }

theorem loadPriorityConfigS_file (st : StoreState) :
    (loadPriorityConfigS st).1.file = st.file := by
  obtain ⟨f, c⟩ := st
  cases f with
  | none => rfl
  | some j => cases j <;> rfl

theorem getPriorityOrderS_file (st : StoreState) :
    (getPriorityOrderS st).1.file = st.file := by
  obtain ⟨f, c⟩ := st
  cases c with
  | none =>
    unfold getPriorityOrderS
    cases hl : (loadPriorityConfigS ⟨f, none⟩).2 with
    | ok cfg => simpa [hl] using loadPriorityConfigS_file ⟨f, none⟩
    | error m => simpa [hl] using loadPriorityConfigS_file ⟨f, none⟩
  | some j => cases j <;> rfl

theorem getPriorityOrderS_cache_some (st : StoreState) (j : StoredJson)
    (h : st.cache = some j) : (getPriorityOrderS st).1 = st := by
  obtain ⟨f, c⟩ := st
  simp only [StoreState.cache] at h
  subst h
  cases j <;> rfl

theorem getAvailableServicesS_file (env : Env) (st : StoreState) :
    (getAvailableServicesS env st).1.file = st.file := by
  unfold getAvailableServicesS
  exact getPriorityOrderS_file st

theorem getAvailableServicesS_cache_some (env : Env) (st : StoreState) (j : StoredJson)
    (h : st.cache = some j) : (getAvailableServicesS env st).1 = st := by
  unfold getAvailableServicesS
  exact getPriorityOrderS_cache_some st j h

theorem getPriorityOrderS_resolved (st : StoreState) (cfg : PriorityConfig)
    (h : resolvesTo st cfg) :
    (getPriorityOrderS st).2 = (orderedEnabled cfg).map (fun p => p.id)
    ∧ (getPriorityOrderS st).1.cache = some (.validJ cfg)
    ∧ (getPriorityOrderS st).1.file = st.file := by
  obtain ⟨f, c⟩ := st
  rcases h with h | ⟨h1, h2⟩
  · simp only [StoreState.cache] at h
    subst h
    exact ⟨rfl, rfl, rfl⟩
  · simp only [StoreState.cache] at h1
    simp only [StoreState.file] at h2
    subst h1; subst h2
    exact ⟨rfl, rfl, rfl⟩

theorem getAvailableServicesS_resolved (env : Env) (st : StoreState) (cfg : PriorityConfig)
    (h : resolvesTo st cfg) :
    (getAvailableServicesS env st).2
      = ((orderedEnabled cfg).map (fun p => p.id)).filterMap (fun sid =>
          (findProvider sid).bind (fun pc =>
            if hasApiKey env pc then some { id := sid, cfg := pc } else none))
    ∧ (getAvailableServicesS env st).1.cache = some (.validJ cfg) := by
  obtain ⟨ho, hc, _⟩ := getPriorityOrderS_resolved st cfg h
  constructor
  · have hdef : (getAvailableServicesS env st).2
        = ((getPriorityOrderS st).2).filterMap (fun sid =>
            (findProvider sid).bind (fun pc =>
              if hasApiKey env pc then some { id := sid, cfg := pc } else none)) := rfl
    rw [hdef, ho]
  · exact hc

theorem getPrioritySettingsS_cache_valid (st : StoreState) (cfg : PriorityConfig)
    (h : st.cache = some (.validJ cfg)) :
    getPrioritySettingsS st = (st, .ok (getPrioritySettings cfg)) := by
  unfold getPrioritySettingsS
  rw [h]

theorem retryWithBackoff_status_401 (beh : Nat → RawOutcome) (k : Nat) (msg : String)
    (h : beh 0 = .err (some 401) msg) :
    retryWithBackoff beh k = (1, .error { status := some 401, message := msg }) := by
  unfold retryWithBackoff
  simp [retryAux, h]

theorem retryWithBackoff_status_429 (beh : Nat → RawOutcome) (k : Nat) (msg : String)
    (h : beh 0 = .err (some 429) msg) :
    retryWithBackoff beh k = (1, .error { status := some 429, message := msg }) := by
  unfold retryWithBackoff
  simp [retryAux, h]

theorem handleError_auth (cfg : ProviderConfig) (e : RawError)
    (h : (strIncludes e.message "401" || strIncludes e.message "auth") = true) :
    handleError cfg e =
      { message := "Authentication failed for " ++ cfg.name ++ ". Please check your API key."
      , status := some 401 } := by
  unfold handleError
  rw [if_pos h]

theorem handleError_rate_limit (cfg : ProviderConfig) (e : RawError)
    (hna : (strIncludes e.message "401" || strIncludes e.message "auth") = false)
    (h : (strIncludes e.message "429" || strIncludes e.message "rate limit") = true) :
    handleError cfg e =
      { message := "Rate limit exceeded for " ++ cfg.name ++ ". Please try again later."
      , status := some 429 } := by
  unfold handleError
  rw [if_neg (by simp [hna]), if_pos h]

theorem serviceGenerate_calls (cfg : ProviderConfig) (beh : Nat → RawOutcome) (k : Nat) :
    (serviceGenerate cfg beh k).1 = (retryWithBackoff beh k).1 := by
  unfold serviceGenerate
  rcases h : retryWithBackoff beh k with ⟨calls, r⟩
  cases r <;> rfl

theorem runCandidates_trace_ids (beh : String → Nat → RawOutcome) (k n : Nat)
    (cands : List ServiceInfo) :
    ∀ (attempts : Nat) (lastE : Option ServiceErrorL),
      ((runCandidates beh k n cands attempts lastE).1).map Prod.fst
        = (takeThrough (stopsAt beh k) cands).map (fun c => c.id) := by
  induction cands with
  | nil => intro attempts lastE; simp [runCandidates, takeThrough]
  | cons c rest ih =>
    intro attempts lastE
    simp only [runCandidates, takeThrough]
    cases h : (serviceGenerate c.cfg (beh c.id) k).2 with
    | ok suc => simp [stopsAt, h]
    | error e =>
      by_cases h401 : (e.status == some 401) = true
      · simp [stopsAt, h, h401]
      · simp only [Bool.not_eq_true] at h401
        simp [stopsAt, h, h401, ih]

theorem runCandidates_trace_calls (beh : String → Nat → RawOutcome) (k n : Nat)
    (cands : List ServiceInfo) :
    ∀ (attempts : Nat) (lastE : Option ServiceErrorL) (p : String × Nat),
      p ∈ (runCandidates beh k n cands attempts lastE).1 →
      p.2 = (retryWithBackoff (beh p.1) k).1 := by
  induction cands with
  | nil => intro attempts lastE p hp; simp [runCandidates] at hp
  | cons c rest ih =>
    intro attempts lastE p hp
    simp only [runCandidates] at hp
    cases h : (serviceGenerate c.cfg (beh c.id) k).2 with
    | ok suc =>
      simp only [h] at hp
      simp at hp
      rw [hp]
      exact serviceGenerate_calls c.cfg (beh c.id) k
    | error e =>
      simp only [h] at hp
      by_cases h401 : (e.status == some 401) = true
      · rw [if_pos h401] at hp
        simp at hp
        rw [hp]
        exact serviceGenerate_calls c.cfg (beh c.id) k
      · rw [if_neg h401] at hp
        simp at hp
        rcases hp with hp | hp
        · rw [hp]
          exact serviceGenerate_calls c.cfg (beh c.id) k
        · exact ih (attempts + 1) (some e) p hp

theorem runCandidates_ok_spec (beh : String → Nat → RawOutcome) (k n : Nat)
    (cands : List ServiceInfo) :
    ∀ (attempts : Nat) (lastE : Option ServiceErrorL) (r : GenerationResult),
      (runCandidates beh k n cands attempts lastE).2 = .ok r →
      r.totalAttempts = attempts + (runCandidates beh k n cands attempts lastE).1.length
      ∧ r.fallbackUsed = decide (1 < r.totalAttempts) := by
  induction cands with
  | nil => intro attempts lastE r hr; simp [runCandidates] at hr
  | cons c rest ih =>
    intro attempts lastE r hr
    simp only [runCandidates] at hr ⊢
    cases h : (serviceGenerate c.cfg (beh c.id) k).2 with
    | ok suc =>
      simp only [h] at hr ⊢
      simp at hr
      subst hr
      simp
    | error e =>
      simp only [h] at hr ⊢
      by_cases h401 : (e.status == some 401) = true
      · rw [if_pos h401] at hr
        simp at hr
      · rw [if_neg h401] at hr
        rw [if_neg h401]
        obtain ⟨h1, h2⟩ := ih (attempts + 1) (some e) r hr
        refine ⟨?_, h2⟩
        simp only [List.length_cons]
        omega

theorem jsOrTrue_eq_true (o : Option Bool) : jsOrTrue o = true := by
  cases o with
  | none => rfl
  | some b => cases b <;> rfl

theorem filterMap_ids (env : Env) (order : List String) :
    (order.filterMap (fun sid => (findProvider sid).bind (fun pc =>
        if hasApiKey env pc then some { id := sid, cfg := pc : ServiceInfo } else none))).map
      (fun c => c.id)
    = order.filter (idAvailable env) := by
  induction order with
  | nil => rfl
  | cons sid rest ih =>
    simp only [List.filterMap_cons, List.filter_cons]
    cases hf : findProvider sid with
    | none => simpa [idAvailable, hf] using ih
    | some pc =>
      by_cases hk : hasApiKey env pc = true
      · simp [idAvailable, hf, hk, ih]
      · simp [idAvailable, hf, hk, ih]

theorem generateResponse_resolved (env : Env) (st : StoreState)
    (beh : String → Nat → RawOutcome) (production : Bool) (opts : GenOptions)
    (cfg : PriorityConfig) (h : resolvesTo st cfg) :
    generateResponse env st beh production opts =
      (if (getAvailableServicesS env st).2.isEmpty then
        { state := (getAvailableServicesS env st).1, trace := [], reqOptions := none
        , result := .error
            { message := "No AI services are available. Please check your API key configuration."
            , status := some 500 } }
      else
        { state := (getAvailableServicesS env st).1
        , trace := (runCandidates beh (if production then 1 else 2)
            (getAvailableServicesS env st).2.length (getAvailableServicesS env st).2 0 none).1
        , reqOptions := some { maxTokens := none, timeout := none }
        , result := (runCandidates beh (if production then 1 else 2)
            (getAvailableServicesS env st).2.length (getAvailableServicesS env st).2 0 none).2 }) := by
  obtain ⟨-, hc⟩ := getAvailableServicesS_resolved env st cfg h
  unfold generateResponse
  by_cases he : (getAvailableServicesS env st).2.isEmpty = true
  · simp only [he, if_true]
  · simp only [he, if_false, Bool.false_eq_true]
    rw [getPrioritySettingsS_cache_valid ((getAvailableServicesS env st).1) cfg hc]
    simp [getPrioritySettings, settingsOf, jsOrTrue_eq_true]

theorem setFirstPriority_find (pid : String) (p : Int) (l : List PriorityEntry)
    (h : l.any (fun e => e.id == pid) = true) :
    ((setFirstPriority pid p l).find? (fun e => e.id == pid)).map (fun e => e.priority)
      = some p := by
  induction l with
  | nil => simp at h
  | cons e rest ih =>
    simp only [setFirstPriority]
    by_cases he : (e.id == pid) = true
    · rw [if_pos he]
      simp [List.find?, he]
    · rw [if_neg he]
      simp only [List.any_cons, he, Bool.false_or] at h
      simp only [List.find?]
      simp only [he]
      exact ih h

theorem forall₂_entryUpd_refl (pid : String) (p : Int) (m : List PriorityEntry) :
    List.Forall₂ (entryUpd pid p) m m := by
  induction m with
  | nil => exact List.Forall₂.nil
  | cons a t iht => exact List.Forall₂.cons ⟨rfl, rfl, rfl, Or.inl rfl⟩ iht

theorem setFirstPriority_entries (pid : String) (p : Int) (l : List PriorityEntry) :
    List.Forall₂ (entryUpd pid p) l (setFirstPriority pid p l) := by
  induction l with
  | nil => exact List.Forall₂.nil
  | cons e rest ih =>
    simp only [setFirstPriority]
    by_cases he : (e.id == pid) = true
    · rw [if_pos he]
      exact List.Forall₂.cons ⟨rfl, rfl, rfl, Or.inr ⟨by simpa using he, rfl⟩⟩
        (forall₂_entryUpd_refl pid p rest)
    · rw [if_neg he]
      exact List.Forall₂.cons ⟨rfl, rfl, rfl, Or.inl rfl⟩ ih

theorem getPrioritySettingsS_ok_flags (st : StoreState) (s : PrioritySettings)
    (h : (getPrioritySettingsS st).2 = .ok s) :
    s.noTokenLimits = true ∧ s.noTimeoutRestrictions = true := by
  obtain ⟨f, c⟩ := st
  cases c with
  | some j =>
    cases j with
    | validJ cfg =>
      simp only [getPrioritySettingsS] at h
      cases h
      exact ⟨jsOrTrue_eq_true _, jsOrTrue_eq_true _⟩
    | invalidJ so =>
      simp only [getPrioritySettingsS] at h
      cases h
      exact ⟨jsOrTrue_eq_true _, jsOrTrue_eq_true _⟩
  | none =>
    cases f with
    | none => simp [getPrioritySettingsS, loadPriorityConfigS] at h
    | some j =>
      cases j with
      | validJ cfg =>
        simp only [getPrioritySettingsS, loadPriorityConfigS] at h
        cases h
        exact ⟨jsOrTrue_eq_true _, jsOrTrue_eq_true _⟩
      | invalidJ so =>
        simp [getPrioritySettingsS, loadPriorityConfigS] at h

/-- C1: the claim fails on the code: an authentication failure (401) also truncates
the attempt sequence.  With groq and gemini both enabled and available, groq failing
with 401 and gemini succeeding, the code attempts only groq, while the claimed
sequence (truncated at the first success) is groq then gemini. -/
theorem c1_counterexample :
    ((generateResponse envBoth stGG behGroq401 false someOpts).trace).map Prod.fst = ["groq"]
    ∧ specAttemptedSequence behGroq401 2 ((getAvailableServicesS envBoth stGG).2)
        = ["groq", "gemini"]
    ∧ (["groq"] : List String) ≠ ["groq", "gemini"] := by
  exact ⟨by decide, by decide, by decide⟩

/-- C1 (amended): the sequence of provider ids attempted equals the
enabled-and-available candidates in ascending priority order, truncated at the
first candidate whose call succeeds or fails with a standardized 401. -/
theorem c1_attempt_sequence (env : Env) (st : StoreState) (beh : String → Nat → RawOutcome)
    (production : Bool) (opts : GenOptions) (cfg : PriorityConfig)
    (h : resolvesTo st cfg) :
    ((generateResponse env st beh production opts).trace).map Prod.fst
      = (takeThrough (stopsAt beh (if production then 1 else 2))
          ((getAvailableServicesS env st).2)).map (fun c => c.id)
    ∧ ((getAvailableServicesS env st).2).map (fun c => c.id)
      = ((orderedEnabled cfg).map (fun p => p.id)).filter (idAvailable env) := by
  constructor
  · rw [generateResponse_resolved env st beh production opts cfg h]
    by_cases he : (getAvailableServicesS env st).2.isEmpty = true
    · rw [if_pos he]
      have hemp : (getAvailableServicesS env st).2 = [] := by
        cases hl : (getAvailableServicesS env st).2 with
        | nil => rfl
        | cons a t => rw [hl] at he; simp [List.isEmpty] at he
      rw [hemp]
      simp [takeThrough]
    · rw [if_neg he]
      exact runCandidates_trace_ids beh _ _ _ 0 none
  · obtain ⟨ha, -⟩ := getAvailableServicesS_resolved env st cfg h
    rw [ha]
    exact filterMap_ids env _

/-- Witness for C1 (amended) at a concrete store, environment and behaviour. -/
theorem c1_attempt_sequence_witness :
    resolvesTo stGG cfgGG
    ∧ (((generateResponse envBoth stGG behGroq429 false someOpts).trace).map Prod.fst
        = (takeThrough (stopsAt behGroq429 (if (false : Bool) then 1 else 2))
            ((getAvailableServicesS envBoth stGG).2)).map (fun c => c.id)
      ∧ ((getAvailableServicesS envBoth stGG).2).map (fun c => c.id)
        = ((orderedEnabled cfgGG).map (fun p => p.id)).filter (idAvailable envBoth)) :=
  ⟨Or.inl rfl, c1_attempt_sequence envBoth stGG behGroq429 false someOpts cfgGG (Or.inl rfl)⟩

/-- C2: the claim fails on the code: after groq's authentication failure the
orchestrator does not attempt gemini (which was available and would have
succeeded); the 401 breaks the candidate loop and the whole request fails. -/
theorem c2_counterexample :
    (generateResponse envBoth stGG behGroq401 false someOpts).trace = [("groq", 1)]
    ∧ ((getAvailableServicesS envBoth stGG).2).map (fun c => c.id) = ["groq", "gemini"]
    ∧ (generateResponse envBoth stGG behGroq401 false someOpts).result
        = .error { message := "All AI services failed. Last error: Authentication failed for Groq. Please check your API key."
                 , status := some 401 }
    ∧ (serviceGenerate geminiConfig (behGroq401 "gemini") 2).2
        = .ok { content := "hello", provider := "Google Gemini" } := by
  exact ⟨by decide, by decide, by decide, by decide⟩

/-- C2 (amended): on an authentication failure of the current candidate the same
provider is not retried (exactly one raw call is made), and the orchestrator
aborts the candidate loop: no further candidate is attempted and the request
fails with a 401 aggregate error. -/
theorem c2_auth_abort (env : Env) (st : StoreState) (beh : String → Nat → RawOutcome)
    (production : Bool) (opts : GenOptions) (cfg : PriorityConfig)
    (c : ServiceInfo) (rest : List ServiceInfo) (msg : String)
    (h : resolvesTo st cfg)
    (havail : (getAvailableServicesS env st).2 = c :: rest)
    (hbeh : beh c.id 0 = .err (some 401) msg)
    (hmsg : (strIncludes msg "401" || strIncludes msg "auth") = true) :
    (generateResponse env st beh production opts).trace = [(c.id, 1)]
    ∧ ∃ e, (generateResponse env st beh production opts).result = .error e
        ∧ e.status = some 401 := by
  have hk : retryWithBackoff (beh c.id) (if production then 1 else 2)
      = (1, .error { status := some 401, message := msg }) :=
    retryWithBackoff_status_401 _ _ _ hbeh
  have hsg : serviceGenerate c.cfg (beh c.id) (if production then 1 else 2)
      = (1, .error (handleError c.cfg { status := some 401, message := msg })) := by
    unfold serviceGenerate
    rw [hk]
  have hst : (handleError c.cfg { status := some 401, message := msg }).status = some 401 := by
    rw [handleError_auth c.cfg _ hmsg]
  rw [generateResponse_resolved env st beh production opts cfg h]
  have hne : (getAvailableServicesS env st).2.isEmpty = false := by
    rw [havail]; rfl
  rw [if_neg (by simp [hne])]
  rw [havail]
  simp only [runCandidates, hsg]
  simp only [hst]
  refine ⟨by simp, ⟨exhaustedError (some (handleError c.cfg { status := some 401, message := msg })), by simp, ?_⟩⟩
  simp [exhaustedError, hst]


/-- Witness for C2 (amended) at a concrete store, environment and behaviour. -/
theorem c2_auth_abort_witness :
    resolvesTo stGG cfgGG
    ∧ (getAvailableServicesS envBoth stGG).2
        = siGroq :: [siGemini]
    ∧ behGroq401 "groq" 0 = .err (some 401) "Request failed with status 401"
    ∧ (strIncludes "Request failed with status 401" "401"
        || strIncludes "Request failed with status 401" "auth") = true
    ∧ ((generateResponse envBoth stGG behGroq401 false someOpts).trace = [("groq", 1)]
      ∧ ∃ e, (generateResponse envBoth stGG behGroq401 false someOpts).result = .error e
          ∧ e.status = some 401) :=
  ⟨Or.inl rfl, by decide, by decide, by decide,
    c2_auth_abort envBoth stGG behGroq401 false someOpts cfgGG
      siGroq [siGemini]
      "Request failed with status 401" (Or.inl rfl) (by decide) (by decide) (by decide)⟩

/-- C3: the claim fails on the code: a rate-limit (429) failure is never retried.
With maxRetries = 2 configured, groq failing 429 on its first call and set to
succeed on any retry, the retry helper still makes exactly one call and rethrows,
and the orchestrator falls through to gemini. -/
theorem c3_counterexample :
    retryWithBackoff
      (fun n => if n = 0 then .err (some 429) "Request failed with status code 429" else .ok "recovered")
      2
      = (1, .error { status := some 429, message := "Request failed with status code 429" })
    ∧ (generateResponse envBoth stGG behGroq429 false someOpts).trace = [("groq", 1), ("gemini", 1)] := by
  exact ⟨by decide, by decide⟩

/-- C3 (amended): on a rate-limit failure of the current candidate the retry
helper rethrows immediately (exactly one raw call, no backoff retries), and the
orchestrator falls through to the remaining candidates. -/
theorem c3_rate_limit_no_retry (env : Env) (st : StoreState) (beh : String → Nat → RawOutcome)
    (production : Bool) (opts : GenOptions) (cfg : PriorityConfig)
    (c : ServiceInfo) (rest : List ServiceInfo) (msg : String)
    (h : resolvesTo st cfg)
    (havail : (getAvailableServicesS env st).2 = c :: rest)
    (hbeh : beh c.id 0 = .err (some 429) msg)
    (hna : (strIncludes msg "401" || strIncludes msg "auth") = false)
    (hr : (strIncludes msg "429" || strIncludes msg "rate limit") = true) :
    retryWithBackoff (beh c.id) (if production then 1 else 2)
      = (1, .error { status := some 429, message := msg })
    ∧ (generateResponse env st beh production opts).trace
        = (c.id, 1) :: (runCandidates beh (if production then 1 else 2) (c :: rest).length rest 1
            (some (handleError c.cfg { status := some 429, message := msg }))).1
    ∧ (generateResponse env st beh production opts).result
        = (runCandidates beh (if production then 1 else 2) (c :: rest).length rest 1
            (some (handleError c.cfg { status := some 429, message := msg }))).2 := by
  have hk : retryWithBackoff (beh c.id) (if production then 1 else 2)
      = (1, .error { status := some 429, message := msg }) :=
    retryWithBackoff_status_429 _ _ _ hbeh
  have hsg : serviceGenerate c.cfg (beh c.id) (if production then 1 else 2)
      = (1, .error (handleError c.cfg { status := some 429, message := msg })) := by
    unfold serviceGenerate
    rw [hk]
  have hst : (handleError c.cfg { status := some 429, message := msg }).status = some 429 := by
    rw [handleError_rate_limit c.cfg _ hna hr]
  refine ⟨hk, ?_⟩
  rw [generateResponse_resolved env st beh production opts cfg h]
  have hne : (getAvailableServicesS env st).2.isEmpty = false := by
    rw [havail]; rfl
  rw [if_neg (by simp [hne])]
  rw [havail]
  simp only [runCandidates, hsg]
  simp only [hst]
  constructor <;> simp

/-- Witness for C3 (amended) at a concrete store, environment and behaviour. -/
theorem c3_rate_limit_no_retry_witness :
    resolvesTo stGG cfgGG
    ∧ (getAvailableServicesS envBoth stGG).2
        = siGroq :: [siGemini]
    ∧ behGroq429 "groq" 0 = .err (some 429) "Request failed with status code 429"
    ∧ (strIncludes "Request failed with status code 429" "401"
        || strIncludes "Request failed with status code 429" "auth") = false
    ∧ (strIncludes "Request failed with status code 429" "429"
        || strIncludes "Request failed with status code 429" "rate limit") = true
    ∧ (retryWithBackoff (behGroq429 "groq") (if (false : Bool) then 1 else 2)
        = (1, .error { status := some 429, message := "Request failed with status code 429" })
      ∧ (generateResponse envBoth stGG behGroq429 false someOpts).trace
          = ("groq", 1) :: (runCandidates behGroq429 (if (false : Bool) then 1 else 2)
              (siGroq :: [siGemini]).length
              [siGemini] 1
              (some (handleError groqConfig
                { status := some 429, message := "Request failed with status code 429" }))).1
      ∧ (generateResponse envBoth stGG behGroq429 false someOpts).result
          = (runCandidates behGroq429 (if (false : Bool) then 1 else 2)
              (siGroq :: [siGemini]).length
              [siGemini] 1
              (some (handleError groqConfig
                { status := some 429, message := "Request failed with status code 429" }))).2) :=
  ⟨Or.inl rfl, by decide, by decide, by decide, by decide,
    c3_rate_limit_no_retry envBoth stGG behGroq429 false someOpts cfgGG
      siGroq [siGemini]
      "Request failed with status code 429" (Or.inl rfl) (by decide) (by decide) (by decide) (by decide)⟩

/-- C4: the claim fails on the code: the availability check enforces no minimum
length. A groq credential that is exactly the 4-character expected prefix and
nothing more is judged available. -/
theorem c4_counterexample :
    isAvailable envGroqPrefixOnly groqConfig = true
    ∧ envGroqPrefixOnly groqConfig.envKey = some "gsk_"
    ∧ ("gsk_" : String).length ≤ 10
    ∧ groqConfig.keyPrefix = "gsk_" := by
  exact ⟨by decide, by decide, by decide, by decide⟩

/-- C4 (amended): the availability check returns true exactly when a credential
value exists for the provider's credential environment key, is non-empty, and
starts with the provider's expected prefix; no minimum length is enforced. -/
theorem c4_availability_condition (env : Env) (cfg : ProviderConfig) :
    isAvailable env cfg = true
      ↔ ∃ k, env cfg.envKey = some k ∧ k ≠ "" ∧ strStartsWith k cfg.keyPrefix = true := by
  cases henv : env cfg.envKey with
  | none => simp [isAvailable, jsTruthyStr, validateApiKey, henv]
  | some k =>
    by_cases hk : k = ""
    · subst hk
      simp [isAvailable, jsTruthyStr, validateApiKey, henv]
    · simp [isAvailable, jsTruthyStr, validateApiKey, henv, hk]

/-- C5: with an empty candidate set generateResponse fails immediately with the
no-services ServiceError, makes zero provider attempts and zero raw calls (empty
trace), leaves the backing file untouched and, when the store cache is populated,
leaves the whole store state untouched. -/
theorem c5_no_provider_fail_fast (env : Env) (st : StoreState)
    (beh : String → Nat → RawOutcome) (production : Bool) (opts : GenOptions)
    (h : (getAvailableServicesS env st).2 = []) :
    (generateResponse env st beh production opts).trace = []
    ∧ (generateResponse env st beh production opts).result
        = .error { message := "No AI services are available. Please check your API key configuration."
                 , status := some 500 }
    ∧ (generateResponse env st beh production opts).state.file = st.file
    ∧ (∀ j, st.cache = some j → (generateResponse env st beh production opts).state = st) := by
  have he : (getAvailableServicesS env st).2.isEmpty = true := by rw [h]; rfl
  unfold generateResponse
  simp only [he, if_true]
  exact ⟨by simp, by simp, getAvailableServicesS_file env st,
    fun j hj => getAvailableServicesS_cache_some env st j hj⟩

/-- Witness for C5 with no credentials configured. -/
theorem c5_no_provider_fail_fast_witness :
    (getAvailableServicesS envNone stGG).2 = []
    ∧ ((generateResponse envNone stGG behAllOk false someOpts).trace = []
      ∧ (generateResponse envNone stGG behAllOk false someOpts).result
          = .error { message := "No AI services are available. Please check your API key configuration."
                   , status := some 500 }
      ∧ (generateResponse envNone stGG behAllOk false someOpts).state.file = stGG.file
      ∧ (∀ j, stGG.cache = some j → (generateResponse envNone stGG behAllOk false someOpts).state = stGG)) :=
  ⟨by decide, c5_no_provider_fail_fast envNone stGG behAllOk false someOpts (by decide)⟩

/-- C6: the claim fails on the code: totalAttempts increments once per candidate
provider, not per raw send. With development retry bound K = 2 and a rate-limited
groq, groq receives exactly one raw call (it cannot fail K times), and the
orchestrator reaches gemini with one prior attempt rather than K; with a
retried 500-failure groq receives 3 raw sends while totalAttempts is still 2. -/
theorem c6_counterexample :
    (generateResponse envBoth stGG behGroq429 false someOpts).trace = [("groq", 1), ("gemini", 1)]
    ∧ (∃ r, (generateResponse envBoth stGG behGroq429 false someOpts).result = .ok r
        ∧ r.totalAttempts = 2 ∧ r.totalAttempts - 1 ≠ 2)
    ∧ (generateResponse envBoth stGG behGroq500 false someOpts).trace = [("groq", 3), ("gemini", 1)]
    ∧ (∃ r, (generateResponse envBoth stGG behGroq500 false someOpts).result = .ok r
        ∧ r.totalAttempts = 2 ∧ r.totalAttempts ≠ 3 + 1) := by
  refine ⟨by decide,
    ⟨{ response := "hello", provider := "Google Gemini", fallbackUsed := true
     , totalAttempts := 2, availableServices := 2 }, by decide, by decide, by decide⟩,
    by decide,
    ⟨{ response := "hello", provider := "Google Gemini", fallbackUsed := true
     , totalAttempts := 2, availableServices := 2 }, by decide, by decide, by decide⟩⟩

/-- C6 (amended): for every successful run, totalAttempts equals the number of
candidate providers attempted (the trace length), one per candidate; the raw
calls recorded per candidate come from the bounded retry helper (in particular a
rate-limited candidate records exactly one raw call, since 429 is rethrown
immediately). -/
theorem c6_total_attempts (env : Env) (st : StoreState) (beh : String → Nat → RawOutcome)
    (production : Bool) (opts : GenOptions) (r : GenerationResult)
    (h : (generateResponse env st beh production opts).result = .ok r) :
    r.totalAttempts = (generateResponse env st beh production opts).trace.length
    ∧ ∀ p ∈ (generateResponse env st beh production opts).trace,
        p.2 = (retryWithBackoff (beh p.1) (if production then 1 else 2)).1 := by
  unfold generateResponse at h ⊢
  by_cases he : (getAvailableServicesS env st).2.isEmpty = true
  · simp [he] at h
  · rw [Bool.not_eq_true] at he
    simp only [he] at h ⊢
    simp only [Bool.false_eq_true, if_false] at h ⊢
    cases hq : (getPrioritySettingsS (getAvailableServicesS env st).1).2 with
    | error m => simp [hq] at h
    | ok s =>
      simp only [hq] at h ⊢
      obtain ⟨h1, -⟩ := runCandidates_ok_spec beh _ _ _ 0 none r h
      refine ⟨by simpa using h1, ?_⟩
      intro p hp
      exact runCandidates_trace_calls beh _ _ _ 0 none p hp

/-- Witness for C6 (amended) on a concrete successful run. -/
theorem c6_total_attempts_witness :
    (generateResponse envBoth stGG behGroq429 false someOpts).result
      = .ok { response := "hello", provider := "Google Gemini", fallbackUsed := true
            , totalAttempts := 2, availableServices := 2 }
    ∧ ((2 : Nat) = (generateResponse envBoth stGG behGroq429 false someOpts).trace.length
      ∧ ∀ p ∈ (generateResponse envBoth stGG behGroq429 false someOpts).trace,
          p.2 = (retryWithBackoff (behGroq429 p.1) (if (false : Bool) then 1 else 2)).1) :=
  ⟨by decide,
    c6_total_attempts envBoth stGG behGroq429 false someOpts
      { response := "hello", provider := "Google Gemini", fallbackUsed := true
      , totalAttempts := 2, availableServices := 2 } (by decide)⟩

/-- C7: the claim fails on the code: with groq enabled first but unavailable
(no credential) and gemini succeeding, gemini sits at index 1 of the full enabled
priority-ordered list, yet fallbackUsed is false, because the counter only sees
the availability-filtered candidate list. -/
theorem c7_counterexample :
    (orderedEnabled cfgGG).map (fun p => p.id) = ["groq", "gemini"]
    ∧ idAvailable envGeminiOnly "groq" = false
    ∧ (∃ r, (generateResponse envGeminiOnly stGG behAllOk false someOpts).result = .ok r
        ∧ r.provider = "Google Gemini" ∧ r.fallbackUsed = false)
    ∧ List.indexOf "gemini" ["groq", "gemini"] = 1 := by
  refine ⟨by decide, by decide,
    ⟨{ response := "hello", provider := "Google Gemini", fallbackUsed := false
     , totalAttempts := 1, availableServices := 1 }, by decide, by decide, by decide⟩,
    by decide⟩

/-- C7 (amended): for every successful run, fallbackUsed is true exactly when
more than one available candidate was attempted, i.e. when the succeeding
provider is not at index 0 of the availability-filtered candidate list;
enabled-but-unavailable providers that were skipped do not count. -/
theorem c7_fallback_used (env : Env) (st : StoreState) (beh : String → Nat → RawOutcome)
    (production : Bool) (opts : GenOptions) (r : GenerationResult)
    (h : (generateResponse env st beh production opts).result = .ok r) :
    (r.fallbackUsed = true ↔ 1 < (generateResponse env st beh production opts).trace.length) := by
  unfold generateResponse at h ⊢
  by_cases he : (getAvailableServicesS env st).2.isEmpty = true
  · simp [he] at h
  · rw [Bool.not_eq_true] at he
    simp only [he] at h ⊢
    simp only [Bool.false_eq_true, if_false] at h ⊢
    cases hq : (getPrioritySettingsS (getAvailableServicesS env st).1).2 with
    | error m => simp [hq] at h
    | ok s =>
      simp only [hq] at h ⊢
      obtain ⟨h1, h2⟩ := runCandidates_ok_spec beh _ _ _ 0 none r h
      rw [h2, h1]
      simp

/-- Witness for C7 (amended) on a concrete successful run. -/
theorem c7_fallback_used_witness :
    (generateResponse envGeminiOnly stGG behAllOk false someOpts).result
      = .ok { response := "hello", provider := "Google Gemini", fallbackUsed := false
            , totalAttempts := 1, availableServices := 1 }
    ∧ ((false : Bool) = true
        ↔ 1 < (generateResponse envGeminiOnly stGG behAllOk false someOpts).trace.length) :=
  ⟨by decide,
    c7_fallback_used envGeminiOnly stGG behAllOk false someOpts
      { response := "hello", provider := "Google Gemini", fallbackUsed := false
      , totalAttempts := 1, availableServices := 1 } (by decide)⟩

/-- C8: the claim fails on the code: load() does throw on a missing store, but
getPriorityOrder catches the failure and silently hands the orchestrator the
hard-coded default ordering gemini, groq, github, openrouter. -/
theorem c8_counterexample :
    (loadPriorityConfigS { file := none, cache := none }).2
      = .error "Priority configuration file not found. Please create priority.json file."
    ∧ (getPriorityOrderS { file := none, cache := none }).2
      = ["gemini", "groq", "github", "openrouter"] := by
  exact ⟨by decide, by decide⟩

/-- C8 (amended): when the backing file is missing or malformed (providers absent
or not an array) and nothing is cached, load() fails with a configuration error,
but getPriorityOrder swallows that failure and supplies the hard-coded fallback
ordering to the orchestrator instead. -/
theorem c8_load_error_fallback_order (st : StoreState)
    (hc : st.cache = none)
    (hf : st.file = none ∨ ∃ s, st.file = some (.invalidJ s)) :
    (∃ m, (loadPriorityConfigS st).2 = .error m)
    ∧ (getPriorityOrderS st).2 = fallbackOrder := by
  obtain ⟨f, c⟩ := st
  simp only [StoreState.cache] at hc
  subst hc
  rcases hf with hf | ⟨s, hf⟩ <;> simp only [StoreState.file] at hf <;> subst hf
  · exact ⟨⟨_, rfl⟩, rfl⟩
  · exact ⟨⟨_, rfl⟩, rfl⟩

/-- Witness for C8 (amended) with a missing backing file. -/
theorem c8_load_error_fallback_order_witness :
    (StoreState.mk none none).cache = none
    ∧ ((StoreState.mk none none).file = none
        ∨ ∃ s, (StoreState.mk none none).file = some (.invalidJ s))
    ∧ ((∃ m, (loadPriorityConfigS (StoreState.mk none none)).2 = .error m)
      ∧ (getPriorityOrderS (StoreState.mk none none)).2 = fallbackOrder) :=
  ⟨rfl, Or.inl rfl,
    c8_load_error_fallback_order (StoreState.mk none none) rfl (Or.inl rfl)⟩

/-- C9: update-then-reload round trip. For any provider id present in a valid,
loaded store, updateProviderPriority(id, 5) persists and reload() re-reads a
collection whose entry for id carries priority 5, while every entry keeps its
id, enabled flag and model, and every entry other than the updated one keeps
its priority. -/
theorem c9_round_trip (cfg : PriorityConfig) (pid : String) (now : String)
    (h : cfg.providers.any (fun e => e.id == pid) = true) :
    ∃ cfg',
      (reloadPriorityConfigS
        (updateProviderPriorityS
          { file := some (.validJ cfg), cache := some (.validJ cfg) } pid 5 now).1).2
        = .ok cfg'
      ∧ ((cfg'.providers.find? (fun e => e.id == pid)).map (fun e => e.priority) = some 5)
      ∧ List.Forall₂ (entryUpd pid 5) cfg.providers cfg'.providers := by
  have hupd : (updateProviderPriorityS
      { file := some (.validJ cfg), cache := some (.validJ cfg) } pid 5 now).1
      = { file := some (.validJ { providers := setFirstPriority pid 5 cfg.providers
                                , settings := cfg.settings, lastUpdated := some now })
        , cache := some (.validJ { providers := setFirstPriority pid 5 cfg.providers
                                 , settings := cfg.settings, lastUpdated := some now }) } := by
    simp only [updateProviderPriorityS, updateGo, h, if_true]
  refine ⟨{ providers := setFirstPriority pid 5 cfg.providers
          , settings := cfg.settings, lastUpdated := some now }, ?_, ?_, ?_⟩
  · rw [hupd]
    rfl
  · exact setFirstPriority_find pid 5 cfg.providers h
  · exact setFirstPriority_entries pid 5 cfg.providers

/-- Witness for C9 on the two-provider configuration. -/
theorem c9_round_trip_witness :
    (cfgGG.providers.any (fun e => e.id == "groq") = true)
    ∧ ∃ cfg',
        (reloadPriorityConfigS
          (updateProviderPriorityS
            { file := some (.validJ cfgGG), cache := some (.validJ cfgGG) } "groq" 5 "t0").1).2
          = .ok cfg'
        ∧ ((cfg'.providers.find? (fun e => e.id == "groq")).map (fun e => e.priority) = some 5)
        ∧ List.Forall₂ (entryUpd "groq" 5) cfgGG.providers cfg'.providers :=
  ⟨by decide, c9_round_trip cfgGG "groq" "t0" (by decide)⟩

/-- C10: the settings getter ignores the stored flags: however the settings
object sets the three flags (including explicitly false), getPrioritySettings
reports them all true with retryCount 1, and consequently generateResponse
always nulls out maxTokens and timeout in the options it passes to adapters. -/
theorem c10_settings_unrestricted (cfg : PriorityConfig) (env : Env) (st : StoreState)
    (beh : String → Nat → RawOutcome) (production : Bool) (opts : GenOptions) :
    (getPrioritySettings cfg).noTimeoutRestrictions = true
    ∧ (getPrioritySettings cfg).noTokenLimits = true
    ∧ (getPrioritySettings cfg).allowCompleteResponse = true
    ∧ (getPrioritySettings cfg).retryCount = 1
    ∧ (∀ ro, (generateResponse env st beh production opts).reqOptions = some ro →
        ro.maxTokens = none ∧ ro.timeout = none) := by
  refine ⟨jsOrTrue_eq_true _, jsOrTrue_eq_true _, jsOrTrue_eq_true _, rfl, ?_⟩
  intro ro hro
  unfold generateResponse at hro
  by_cases he : (getAvailableServicesS env st).2.isEmpty = true
  · simp [he] at hro
  · rw [Bool.not_eq_true] at he
    simp only [he] at hro
    simp only [Bool.false_eq_true, if_false] at hro
    cases hq : (getPrioritySettingsS (getAvailableServicesS env st).1).2 with
    | error m => simp [hq] at hro
    | ok s =>
      simp only [hq] at hro
      obtain ⟨ht, hn⟩ := getPrioritySettingsS_ok_flags (getAvailableServicesS env st).1 s hq
      simp only [ht, hn, if_true, Option.some.injEq] at hro
      subst hro
      exact ⟨rfl, rfl⟩

/-- Witness for C10 on a configuration whose flags are explicitly false. -/
theorem c10_settings_unrestricted_witness :
    ((getPrioritySettings cfgExplicitFalse).noTimeoutRestrictions = true
    ∧ (getPrioritySettings cfgExplicitFalse).noTokenLimits = true
    ∧ (getPrioritySettings cfgExplicitFalse).allowCompleteResponse = true
    ∧ (getPrioritySettings cfgExplicitFalse).retryCount = 1)
    ∧ (generateResponse envGeminiOnly stGG behAllOk false someOpts).reqOptions
        = some { maxTokens := none, timeout := none }
    ∧ ({ maxTokens := none, timeout := none : GenOptions }.maxTokens = none
      ∧ { maxTokens := none, timeout := none : GenOptions }.timeout = none) := by
  obtain ⟨h1, h2, h3, h4, h5⟩ :=
    c10_settings_unrestricted cfgExplicitFalse envGeminiOnly stGG behAllOk false someOpts
  exact ⟨⟨h1, h2, h3, h4⟩, by decide,
    h5 { maxTokens := none, timeout := none } (by decide)⟩
